import Mathlib

/-!
Shallow embedding of the MrDaniel news/chat single-page application
(`src/index.tsx`).  The application's meaningful logic consists of the news
retrieval orchestrator `fetchNews`, the chat orchestrator `handleChat`, the
CSV exporter `exportCSV`, and the fixed category list `CATEGORY_LIST`.

External effects (the AI provider call outcome, the JSON parser of the host
runtime, locale-formatted time strings, wall-clock time) are passed in as
parameters; the state updates performed by the React `set*` calls are modelled
as explicit functional updates of an `AppState` record.  The `await` point of
`handleChat` is modelled by splitting it into a start phase (everything before
`sendMessage`) and a resolve phase (the `then`/`catch`/`finally`), so that the
state visible while a chat call is outstanding is a first-class value.
-/

namespace MrDaniel

/-- A grounding citation: the `c.web` payload of a grounding chunk,
a `\x7buri, title\x7d` pair (source line 104). -/
structure Citation where
  uri : String
  title : String
deriving DecidableEq, Repr

/-- Structure `NewsItem` (source lines 94-105).  `groundingSources` is optional in the
source; items built by `fetchNews` always set it, and we keep it as a plain
list (the `?` only matters for rendering). -/
structure NewsItem where
  id : String
  title : String
  summary : String
  sources : List String
  url : String
  timestamp : String
  category : String
  isVerified : Bool
  verificationDetails : String
  groundingSources : List Citation
deriving DecidableEq, Repr

/-- A news item as parsed from the provider's JSON text, before the
`groundingSources` annotation is spread onto it (source line 227). -/
structure RawNewsItem where
  id : String
  title : String
  summary : String
  sources : List String
  url : String
  timestamp : String
  category : String
  isVerified : Bool
  verificationDetails : String
deriving DecidableEq, Repr

/-- Spreading the shared grounding list onto a parsed item
(source lines 227-230: `\x7b...item, groundingSources: grounding\x7d`). -/
def annotate (it : RawNewsItem) (grounding : List Citation) : NewsItem :=
  { id := it.id, title := it.title, summary := it.summary,
    sources := it.sources, url := it.url, timestamp := it.timestamp,
    category := it.category, isVerified := it.isVerified,
    verificationDetails := it.verificationDetails,
    groundingSources := grounding }

/-- Chat message role (source line 108). -/
inductive Role where
  | user
  | model
deriving DecidableEq, Repr

/-- Structure `ChatMessage` (source lines 107-110). -/
structure ChatMessage where
  role : Role
  text : String
deriving DecidableEq, Repr

/-- The fixed category list `CATEGORY_LIST` (source line 112). -/
def CATEGORY_LIST : List String :=
  ["General", "Política", "Economía", "Internacional", "Seguridad", "Salud",
   "Energía", "Crisis"]

/-- The conversational session handle created by `ai.chats.create`
(source lines 277-283): its model name and its fixed configuration
(system instruction; the search tool flag is constant and omitted). -/
structure ChatSession where
  model : String
  systemInstruction : String
deriving DecidableEq, Repr

/-- The two main views (source line 160). -/
inductive View where
  | news
  | chat
deriving DecidableEq, Repr

/-- The mutable view state of `MrDanielApp` relevant to the orchestrators
(source lines 159-172).  `lastSync` is wall-clock time in epoch
milliseconds.  `chatSession` is the `chatInstance` ref. -/
structure AppState where
  activeView : View
  isDrawerOpen : Bool
  selectedCategory : String
  news : List NewsItem
  loading : Bool
  lastSync : Nat
  chatMessages : List ChatMessage
  input : String
  isTyping : Bool
  chatSession : Option ChatSession
deriving DecidableEq, Repr

/-- A grounding chunk of the provider response; `web` is absent for
non-web chunks (filtered out by `.filter(Boolean)`, source line 226). -/
structure GroundingChunk where
  web : Option Citation
deriving DecidableEq, Repr

/-- The optional `groundingMetadata` of a response candidate. -/
structure GroundingMetadata where
  groundingChunks : Option (List GroundingChunk)
deriving DecidableEq, Repr

/-- A response candidate (only the grounding metadata is read). -/
structure Candidate where
  groundingMetadata : Option GroundingMetadata
deriving DecidableEq, Repr

/-- The provider's generate-content response as read by `fetchNews`:
the optional candidate list and the optional text payload. -/
structure GenResponse where
  candidates : Option (List Candidate)
  text : Option String
deriving DecidableEq, Repr

/-- Source line 226:
`response.candidates?.[0]?.groundingMetadata?.groundingChunks?.map(c => c.web).filter(Boolean) || []`.
Every optional-chaining miss, and an empty candidate list, yields `[]`. -/
def extractGrounding (r : GenResponse) : List Citation :=
  match r.candidates with
  | some (c :: _) =>
    match c.groundingMetadata with
    | some m =>
      match m.groundingChunks with
      | some chunks => chunks.filterMap (fun ch => ch.web)
      | none => []
    | none => []
  | _ => []

/-- Source line 227: `response.text || "[]"` — JavaScript `||` falls through
on the absent value and on the empty string (both falsy). -/
def textOrEmptyArray (t : Option String) : String :=
  match t with
  | none => "[]"
  | some s => if s = "" then "[]" else s

/-- The retrieval prompt built by `fetchNews` (source lines 190-196),
interpolating the category, `navigator.language` and the current ISO
timestamp. -/
def newsPrompt (cat lang iso : String) : String :=
  "Act as MrDaniel, God-Level News AI. Retrieve 8 most recent verified news items for \"" ++ cat
    ++ "\" in " ++ lang ++ ".\n    MANDATORY RULES: \n    - ONLY confirmed facts. Current date: "
    ++ iso
    ++ ".\n    - Double source rule (isVerified=true only if 2+ major outlets).\n    - Tone: Professional, zero opinion.\n    - Response: JSON array of objects.\n    - Fields: id, title, summary, sources (array), url, timestamp, category, isVerified (boolean), verificationDetails."

/-- A generate-content request as issued to the provider: model name and
prompt contents (the constant schema/tools configuration is omitted). -/
structure GenRequest where
  model : String
  contents : String
deriving DecidableEq, Repr

/-- The single request issued by one `fetchNews` invocation
(source lines 199-224). -/
def newsRequest (cat lang iso : String) : GenRequest :=
  { model := "gemini-3-flash-preview", contents := newsPrompt cat lang iso }

/-- The state update performed by `fetchNews` (source lines 185-239), given
the outcome of the provider call and the host JSON parser `parse`
(`JSON.parse` typed at the declared response schema; `none` models a parse
throw or a non-array result).  `setLoading(true)` runs first; a network
throw or parse throw lands in `catch` (which only logs), and `finally`
clears `loading`; on success the news list is replaced wholesale, every item
annotated with the shared grounding list, and `lastSync` is set to now. -/
def fetchNewsUpdate (parse : String → Option (List RawNewsItem))
    (s : AppState) (result : Except Unit GenResponse) (now : Nat) : AppState :=
  let s0 := { s with loading := true }
  match result with
  | .error _ => { s0 with loading := false }
  | .ok r =>
    let grounding := extractGrounding r
    match parse (textOrEmptyArray r.text) with
    | none => { s0 with loading := false }
    | some items =>
      let data := items.map (fun it => annotate it grounding)
      { s0 with news := data, lastSync := now, loading := false }

/-- One full `fetchNews(cat)` invocation: the request it issues (exactly the
one built from its prompt) and the resulting state. -/
def fetchNews (parse : String → Option (List RawNewsItem)) (s : AppState)
    (cat lang iso : String) (result : Except Unit GenResponse) (now : Nat) :
    AppState × List GenRequest :=
  (fetchNewsUpdate parse s result now, [newsRequest cat lang iso])

/-- A category-selection event (source line 360: the category button click
sets `selectedCategory`, switches to the news view and closes the drawer)
followed by the effect on `selectedCategory` (source lines 296-298), which
invokes `fetchNews` once for the newly selected category. -/
def selectCategory (parse : String → Option (List RawNewsItem)) (s : AppState)
    (cat lang iso : String) (result : Except Unit GenResponse) (now : Nat) :
    AppState × List GenRequest :=
  let s1 := { s with selectedCategory := cat, activeView := View.news,
                     isDrawerOpen := false }
  fetchNews parse s1 cat lang iso result now

/-- Model of JavaScript `String.prototype.trim`: strip leading and trailing
whitespace characters.  (`input.trim()` on source line 242; the empty string
is the falsy case of `!input.trim()`.) -/
def jsTrim (s : String) : String :=
  String.mk (((s.data.dropWhile Char.isWhitespace).reverse.dropWhile
    Char.isWhitespace).reverse)

/-- Model of JavaScript `Array.prototype.join(sep)` (source line 304). -/
def joinSep (sep : String) : List String → String
  | [] => ""
  | [x] => x
  | x :: y :: l => x ++ sep ++ joinSep sep (y :: l)

/-- The locale-formatted time values computed at the top of `handleChat`
(source lines 251-256): `toLocaleDateString`, `toLocaleTimeString` and
`toISOString` of the wall clock, passed in since they are host-runtime
formatting of the current instant. -/
structure TemporalContext where
  fullDate : String
  exactTime : String
  iso : String
deriving DecidableEq, Repr

/-- The chat system instruction (source lines 259-274), interpolating the
temporal context and `navigator.language`. -/
def systemInstruction (tc : TemporalContext) (lang : String) : String :=
  "Eres MrDaniel, el analista de noticias y auditor de realidad más avanzado del mundo. \n    Tu nivel de consciencia temporal es ABSOLUTO. No solo sabes el año, conoces el segundo exacto.\n\n    CONTEXTO TEMPORAL ACTUAL (CRÍTICO):\n    - Fecha: "
    ++ tc.fullDate
    ++ "\n    - Hora Exacta: " ++ tc.exactTime
    ++ "\n    - Timestamp: " ++ tc.iso
    ++ "\n\n    FORMA DE SER Y REDACTAR (ADN MRDANIEL):\n    - HUMANO Y PROFESIONAL: Escribe con la elegancia de un periodista de élite y la calidez de un mentor experto. Evita muletillas de IA (\"Entiendo tu pregunta\", \"Como modelo de lenguaje\"). Ve directo al grano con empatía.\n    - REDACCIÓN LIMPIA: Usa párrafos cortos, estructura impecable y un léxico rico pero accesible.\n    - SINCRONIZACIÓN LIVE: Estás conectado al flujo global de MrDaniel. Si algo ocurrió hace 10 segundos, DEBES saberlo. Usa tu herramienta de búsqueda (Google Search) en CADA respuesta para validar la actualidad.\n    - PRECISIÓN QUIRÚRGICA: Si un dato no está verificado al 100%, dilo: \"Estamos en proceso de auditoría para este hecho específico\". No especules jamás.\n    - IDIOMA: Responde siempre en el idioma que te hablen (prioridad: "
    ++ lang
    ++ ").\n\n    TU MISIÓN: Ayudar al usuario a navegar la complejidad del mundo actual con datos fríos, contexto histórico y una visión humana. Eres el filtro definitivo entre el ruido y la verdad."

/-- A `sendMessage` call issued to the chat session (source line 287). -/
structure ChatCall where
  message : String
deriving DecidableEq, Repr

/-- The synchronous prefix of `handleChat` up to and including issuing
`sendMessage` (source lines 241-287): the guard
`if (!input.trim() || isTyping) return;` (empty string is falsy), the
optimistic append of the user message, clearing the input box, raising
`isTyping`, lazily creating the chat session on first use, and issuing the
call with the captured input.  Returns the state as it stands while the call
is outstanding, and the issued call (`none` when the guard rejects). -/
def chatStart (s : AppState) (tc : TemporalContext) (lang : String) :
    AppState × Option ChatCall :=
  if jsTrim s.input = "" ∨ s.isTyping then (s, none)
  else
    let userMsg : ChatMessage := { role := Role.user, text := s.input }
    let s1 := { s with chatMessages := s.chatMessages ++ [userMsg],
                       input := "", isTyping := true }
    let sess : ChatSession :=
      { model := "gemini-3-flash-preview",
        systemInstruction := systemInstruction tc lang }
    let s2 :=
      match s1.chatSession with
      | some _ => s1
      | none => { s1 with chatSession := some sess }
    (s2, some { message := s.input })

/-- The continuation of `handleChat` once the outstanding `sendMessage`
settles (source lines 286-293): on success the reply text is appended as a
model message; on failure `catch` only logs; `finally` clears `isTyping`. -/
def chatResolve (s : AppState) (outcome : Except Unit String) : AppState :=
  match outcome with
  | .ok reply =>
    let modelMsg : ChatMessage := { role := Role.model, text := reply }
    { s with chatMessages := s.chatMessages ++ [modelMsg], isTyping := false }
  | .error _ => { s with isTyping := false }

/-- One complete `handleChat` invocation (source lines 241-294), given the
outcome the provider call would settle with: the final state and the list of
provider calls issued (empty when the guard rejects, one otherwise — the
code contains no retry). -/
def handleChat (s : AppState) (tc : TemporalContext) (lang : String)
    (outcome : Except Unit String) : AppState × List ChatCall :=
  match chatStart s tc lang with
  | (s1, none) => (s1, [])
  | (s1, some c) => (chatResolve s1 outcome, [c])

/-- A sequence of completed chat turns.  Each turn `(u, tc, out)` models the
user typing `u` into the input box and submitting, with temporal context `tc`
and provider outcome `out` for that turn. -/
def runTurns (s : AppState) (lang : String)
    (turns : List (String × TemporalContext × Except Unit String)) : AppState :=
  match turns with
  | [] => s
  | (u, tc, out) :: rest =>
    runTurns ((handleChat { s with input := u } tc lang out).1) lang rest

/-- The transcript fragment contributed by a list of successful turns with
user inputs `u` and replies `r`: user message then model reply, per turn. -/
def turnsTranscript (turns : List (String × String)) : List ChatMessage :=
  (turns.map (fun t =>
    [ChatMessage.mk Role.user t.1, ChatMessage.mk Role.model t.2])).flatten

/-- The CSV text built by `exportCSV` (source lines 300-304): header row,
then one row per displayed item — double-quoted title, category, `YES`/`NO`
for the verification flag, timestamp, URL — each row comma-joined, rows
newline-joined. -/
def exportCSVContent (news : List NewsItem) : String :=
  joinSep "\n"
    ((["Title", "Category", "Verified", "Time", "URL"] ::
      news.map (fun n =>
        ["\"" ++ n.title ++ "\"", n.category,
         if n.isVerified then "YES" else "NO", n.timestamp, n.url])).map
      (fun e => joinSep "," e))

/-- The download filename (source line 309):
`MrDaniel_Report_` ++ epoch-millis ++ `.csv`. -/
def exportFilename (now : Nat) : String :=
  "MrDaniel_Report_" ++ toString now ++ ".csv"

/-! Concrete sample values used to instantiate the theorems below on
closed inputs. -/

/-- The citation of the grounding scenario in the spec's testable
properties. -/
def sampleCitation : Citation :=
  { uri := "https://a.example", title := "A" }

/-- A concrete parsed news item. -/
def sampleRaw (n : String) : RawNewsItem :=
  { id := n, title := "Headline " ++ n, summary := "Summary " ++ n,
    sources := ["Outlet1", "Outlet2"], url := "https://news.example/" ++ n,
    timestamp := "2026-10-11", category := "Seguridad", isVerified := true,
    verificationDetails := "double-sourced" }

/-- A concrete displayed news item (no grounding citations). -/
def sampleNews : NewsItem := annotate (sampleRaw "0") []

/-- A concrete application state with one displayed item, an idle chat and
no chat session yet. -/
def sampleState : AppState :=
  { activeView := View.news, isDrawerOpen := false,
    selectedCategory := "General", news := [sampleNews], loading := false,
    lastSync := 100, chatMessages := [], input := "", isTyping := false,
    chatSession := none }

/-- A concrete temporal context. -/
def sampleTC : TemporalContext :=
  { fullDate := "sábado, 11 de octubre de 2026", exactTime := "10:15:30",
    iso := "2026-10-11T10:15:30.000Z" }

/-- A host JSON parser that rejects every text (models `JSON.parse`
throwing). -/
def parseNone : String → Option (List RawNewsItem) := fun _ => none

/-- A host JSON parser defined only on the literal `[]` (the behaviour of
`JSON.parse` that `fetchNews` relies on for an absent/empty payload). -/
def parseEmptyOnly : String → Option (List RawNewsItem) :=
  fun t => if t = "[]" then some [] else none

/-- A host JSON parser mapping the payload `three` to three items. -/
def parseThree : String → Option (List RawNewsItem) :=
  fun t => if t = "three" then some [sampleRaw "1", sampleRaw "2", sampleRaw "3"]
           else none

/-- A grounding chunk carrying the sample citation. -/
def sampleChunk : GroundingChunk := { web := some sampleCitation }

/-- Grounding metadata with the single sample chunk. -/
def sampleMetadata : GroundingMetadata :=
  { groundingChunks := some [sampleChunk] }

/-- A response candidate carrying the sample grounding metadata. -/
def sampleCandidate : Candidate := { groundingMetadata := some sampleMetadata }

/-- A provider response with one citation and the payload `three`. -/
def respThree : GenResponse :=
  { candidates := some [sampleCandidate], text := some "three" }

/-- A provider response that resolved with an absent text payload and no
grounding metadata. -/
def respNoText : GenResponse := { candidates := none, text := none }

/-! ### Basic lemmas about the chat phases -/

/-- When the guard rejects (blank trimmed input or a call already in
flight), the start phase changes nothing and issues no call. -/
theorem chatStart_guard (s : AppState) (tc : TemporalContext) (lang : String)
    (h : jsTrim s.input = "" ∨ s.isTyping) : chatStart s tc lang = (s, none) := by
  unfold chatStart
  rw [if_pos h]

/-- When the guard passes, the start phase appends the user message, clears
the input, raises `isTyping`, fills the session if absent, and issues the
call carrying the submitted input. -/
theorem chatStart_run (s : AppState) (tc : TemporalContext) (lang : String)
    (h1 : ¬ jsTrim s.input = "") (h2 : s.isTyping = false) :
    chatStart s tc lang =
      ({ s with
          chatMessages := s.chatMessages ++ [ChatMessage.mk Role.user s.input],
          input := "", isTyping := true,
          chatSession := some (s.chatSession.getD
            (ChatSession.mk "gemini-3-flash-preview" (systemInstruction tc lang))) },
       some (ChatCall.mk s.input)) := by
  have hc : ¬ (jsTrim s.input = "" ∨ s.isTyping = true) := by
    simp [h1, h2]
  unfold chatStart
  rw [if_neg hc]
  rcases hs : s.chatSession with _ | sess <;> simp [hs, Option.getD]

/-- The resolve phase on a failed call only clears `isTyping`. -/
theorem chatResolve_error (s : AppState) (u : Unit) :
    chatResolve s (Except.error u) = { s with isTyping := false } := rfl

/-- The resolve phase on a successful call appends the reply and clears
`isTyping`. -/
theorem chatResolve_ok (s : AppState) (r : String) :
    chatResolve s (Except.ok r) =
      { s with chatMessages := s.chatMessages ++ [ChatMessage.mk Role.model r],
               isTyping := false } := rfl

/-! ### The claims -/

/-- C1: Whenever a news retrieval fails — the provider call throws, or
the response text is not parseable JSON — the displayed news list and the
last-synchronized timestamp are unchanged, and `fetchNews` returns a plain
state (the whole failure effect is clearing the loading flag): no exception
reaches the view layer. -/
theorem fetchNews_failure_silent
    (parse : String → Option (List RawNewsItem)) (s : AppState)
    (cat lang iso : String) (result : Except Unit GenResponse) (now : Nat)
    (hfail : result = Except.error () ∨
      ∃ r, result = Except.ok r ∧ parse (textOrEmptyArray r.text) = none) :
    (fetchNews parse s cat lang iso result now).1.news = s.news ∧
    (fetchNews parse s cat lang iso result now).1.lastSync = s.lastSync ∧
    (fetchNews parse s cat lang iso result now).1 = { s with loading := false } := by
  rcases hfail with h | ⟨r, hr, hp⟩
  · subst h
    exact ⟨rfl, rfl, rfl⟩
  · subst hr
    refine ⟨?_, ?_, ?_⟩ <;> simp [fetchNews, fetchNewsUpdate, hp]

/-- Witness for `fetchNews_failure_silent`: a provider throw against the
sample state leaves its news list and sync time intact. -/
theorem fetchNews_failure_silent_witness :
    (fetchNews parseNone sampleState "General" "en-US" "2026-10-11T00:00:00Z"
        (Except.error ()) 123).1.news = sampleState.news ∧
    (fetchNews parseNone sampleState "General" "en-US" "2026-10-11T00:00:00Z"
        (Except.error ()) 123).1.lastSync = sampleState.lastSync ∧
    (fetchNews parseNone sampleState "General" "en-US" "2026-10-11T00:00:00Z"
        (Except.error ()) 123).1 = { sampleState with loading := false } :=
  fetchNews_failure_silent parseNone sampleState "General" "en-US"
    "2026-10-11T00:00:00Z" (Except.error ()) 123 (Or.inl rfl)

/-- C4: Submitting an empty or whitespace-only chat input is a complete
no-op: the state (in particular the transcript) is unchanged and no provider
call is issued. -/
theorem handleChat_blank_input_noop (s : AppState) (tc : TemporalContext)
    (lang : String) (out : Except Unit String) (h : jsTrim s.input = "") :
    handleChat s tc lang out = (s, []) := by
  unfold handleChat
  rw [chatStart_guard s tc lang (Or.inl h)]

/-- Witness for `handleChat_blank_input_noop` on a whitespace-only input. -/
theorem handleChat_blank_input_noop_witness :
    handleChat { sampleState with input := "   " } sampleTC "es"
        (Except.ok "reply")
      = ({ sampleState with input := "   " }, []) :=
  handleChat_blank_input_noop { sampleState with input := "   " } sampleTC "es"
    (Except.ok "reply") (by decide)

/-- C5: The in-flight boolean gates chat submissions: a submission while
`isTyping` is set is a no-op with no provider call; conversely, whenever a
call is issued the state visible while it is outstanding has `isTyping` set,
so any further submission attempt against that state is a no-op until the
call resolves; and a single invocation issues at most one call. -/
theorem handleChat_single_flight
    (s : AppState) (tc tc' : TemporalContext) (lang lang' : String)
    (out : Except Unit String) :
    (s.isTyping = true → handleChat s tc lang out = (s, [])) ∧
    (∀ m c, chatStart s tc lang = (m, some c) →
      m.isTyping = true ∧ chatStart m tc' lang' = (m, none)) ∧
    (handleChat s tc lang out).2.length ≤ 1 := by
  refine ⟨fun hty => ?_, fun m c hmc => ?_, ?_⟩
  · unfold handleChat
    rw [chatStart_guard s tc lang (Or.inr hty)]
  · by_cases hg : jsTrim s.input = "" ∨ s.isTyping
    · rw [chatStart_guard s tc lang hg] at hmc
      exact absurd hmc (by simp)
    · push_neg at hg
      obtain ⟨h1, h2⟩ := hg
      have h2' : s.isTyping = false := by simpa using h2
      rw [chatStart_run s tc lang h1 h2'] at hmc
      rw [Prod.mk.injEq] at hmc
      obtain ⟨hm, _⟩ := hmc
      subst hm
      exact ⟨rfl, chatStart_guard _ tc' lang' (Or.inr rfl)⟩
  · unfold handleChat
    rcases h : chatStart s tc lang with ⟨s1, co⟩
    cases co <;> simp

/-- Witness for `handleChat_single_flight`: with a call outstanding, a
further submission leaves the state untouched and issues nothing. -/
theorem handleChat_single_flight_witness :
    handleChat { sampleState with isTyping := true } sampleTC "es"
        (Except.ok "r")
      = ({ sampleState with isTyping := true }, []) :=
  (handleChat_single_flight { sampleState with isTyping := true } sampleTC
    sampleTC "es" "es" (Except.ok "r")).1 rfl

/-- C10: A retrieval that resolves without throwing but with an absent or
empty text payload parses the fallback `"[]"`: the displayed list is replaced
by the empty list (the previous list is discarded) and the last-synchronized
timestamp is updated — unlike the failure path, which preserves both. -/
theorem fetchNews_emptyText_wipes
    (parse : String → Option (List RawNewsItem)) (s : AppState)
    (r : GenResponse) (now : Nat)
    (hjs : parse "[]" = some [])
    (htext : r.text = none ∨ r.text = some "") :
    fetchNewsUpdate parse s (Except.ok r) now
      = { s with news := [], lastSync := now, loading := false } := by
  have ht : textOrEmptyArray r.text = "[]" := by
    rcases htext with h | h <;> simp [textOrEmptyArray, h]
  simp [fetchNewsUpdate, ht, hjs]

/-- Witness for `fetchNews_emptyText_wipes`: an absent payload wipes the
sample state's one-item list and bumps the sync time. -/
theorem fetchNews_emptyText_wipes_witness :
    fetchNewsUpdate parseEmptyOnly sampleState (Except.ok respNoText) 555
      = { sampleState with news := [], lastSync := 555, loading := false } :=
  fetchNews_emptyText_wipes parseEmptyOnly sampleState respNoText 555
    (by decide) (Or.inl rfl)

/-- C2: When the provider call of a chat turn fails, the transcript ends
with the user's message and no model reply for that turn, the awaiting-reply
flag is cleared, and exactly one call was issued (no retry). -/
theorem handleChat_failure_policy
    (s : AppState) (tc : TemporalContext) (lang : String) (u : Unit)
    (h1 : ¬ jsTrim s.input = "") (h2 : s.isTyping = false) :
    (handleChat s tc lang (Except.error u)).1.chatMessages
        = s.chatMessages ++ [ChatMessage.mk Role.user s.input] ∧
    (handleChat s tc lang (Except.error u)).1.isTyping = false ∧
    (handleChat s tc lang (Except.error u)).2 = [ChatCall.mk s.input] := by
  unfold handleChat
  rw [chatStart_run s tc lang h1 h2]
  exact ⟨rfl, rfl, rfl⟩

/-- Witness for `handleChat_failure_policy`: a failed first turn on the
sample state. -/
theorem handleChat_failure_policy_witness :
    (handleChat { sampleState with input := "hola" } sampleTC "es"
        (Except.error ())).1.chatMessages = [ChatMessage.mk Role.user "hola"] ∧
    (handleChat { sampleState with input := "hola" } sampleTC "es"
        (Except.error ())).1.isTyping = false ∧
    (handleChat { sampleState with input := "hola" } sampleTC "es"
        (Except.error ())).2 = [ChatCall.mk "hola"] := by
  exact handleChat_failure_policy { sampleState with input := "hola" } sampleTC
    "es" () (by decide) rfl

/-- C6: The chat session is created lazily exactly once: a turn that
finds no session installs one whose fixed system instruction embeds the
temporal context of that turn; any turn that finds an existing session leaves
it untouched — whatever the later turn's temporal context, the instruction is
not refreshed. -/
theorem chatSession_lazy_once
    (s : AppState) (tc tc' : TemporalContext) (lang lang' : String)
    (out out' : Except Unit String) (sess : ChatSession) :
    (s.chatSession = none → ¬ jsTrim s.input = "" → s.isTyping = false →
      (handleChat s tc lang out).1.chatSession
        = some (ChatSession.mk "gemini-3-flash-preview"
            (systemInstruction tc lang))) ∧
    (s.chatSession = some sess →
      (handleChat s tc' lang' out').1.chatSession = some sess) := by
  constructor
  · intro hnone h1 h2
    unfold handleChat
    rw [chatStart_run s tc lang h1 h2]
    cases out with
    | ok r => simp [chatResolve, hnone]
    | error u => simp [chatResolve, hnone]
  · intro hsess
    by_cases hg : jsTrim s.input = "" ∨ s.isTyping
    · unfold handleChat
      rw [chatStart_guard s tc' lang' hg]
      exact hsess
    · push_neg at hg
      obtain ⟨h1, h2⟩ := hg
      have h2' : s.isTyping = false := by simpa using h2
      unfold handleChat
      rw [chatStart_run s tc' lang' h1 h2']
      cases out' with
      | ok r => simp [chatResolve, hsess]
      | error u => simp [chatResolve, hsess]

/-- Witness for `chatSession_lazy_once`: the first passing turn on the
sample state installs the session seeded from that turn's temporal
context. -/
theorem chatSession_lazy_once_witness :
    (handleChat { sampleState with input := "hola" } sampleTC "es"
        (Except.ok "r")).1.chatSession
      = some (ChatSession.mk "gemini-3-flash-preview"
          (systemInstruction sampleTC "es")) := by
  exact (chatSession_lazy_once { sampleState with input := "hola" } sampleTC
    sampleTC "es" "es" (Except.ok "r") (Except.ok "r")
    (ChatSession.mk "m" "i")).1 rfl (by decide) rfl

/-- C7: On a successful retrieval, every item of the resulting news list
carries the one grounding-citation list extracted from the response's
metadata — the same shared list for all items. -/
theorem fetchNews_shared_grounding
    (parse : String → Option (List RawNewsItem)) (s : AppState)
    (r : GenResponse) (now : Nat) (items : List RawNewsItem)
    (hp : parse (textOrEmptyArray r.text) = some items) :
    ∀ item ∈ (fetchNewsUpdate parse s (Except.ok r) now).news,
      item.groundingSources = extractGrounding r := by
  intro item hitem
  simp only [fetchNewsUpdate, hp, List.mem_map] at hitem
  obtain ⟨it, hit, rfl⟩ := hitem
  rfl

/-- Witness for `fetchNews_shared_grounding`: the provider returns one
citation alongside three items, and each of the three carries that identical
single-citation list. -/
theorem fetchNews_shared_grounding_witness :
    (annotate (sampleRaw "1") [sampleCitation]).groundingSources
        = extractGrounding respThree ∧
    (annotate (sampleRaw "2") [sampleCitation]).groundingSources
        = extractGrounding respThree ∧
    (annotate (sampleRaw "3") [sampleCitation]).groundingSources
        = extractGrounding respThree := by
  refine ⟨?_, ?_, ?_⟩
  · exact fetchNews_shared_grounding parseThree sampleState respThree 7
      [sampleRaw "1", sampleRaw "2", sampleRaw "3"] (by decide)
      (annotate (sampleRaw "1") [sampleCitation]) (by decide)
  · exact fetchNews_shared_grounding parseThree sampleState respThree 7
      [sampleRaw "1", sampleRaw "2", sampleRaw "3"] (by decide)
      (annotate (sampleRaw "2") [sampleCitation]) (by decide)
  · exact fetchNews_shared_grounding parseThree sampleState respThree 7
      [sampleRaw "1", sampleRaw "2", sampleRaw "3"] (by decide)
      (annotate (sampleRaw "3") [sampleCitation]) (by decide)

/-- C8: Selecting any category of the fixed eight-element enumeration
issues exactly one retrieval call, and that call's prompt contains the
category's literal token. -/
theorem selectCategory_one_call_with_token
    (parse : String → Option (List RawNewsItem)) (s : AppState)
    (cat lang iso : String) (result : Except Unit GenResponse) (now : Nat)
    (_hcat : cat ∈ CATEGORY_LIST) :
    (selectCategory parse s cat lang iso result now).2
        = [newsRequest cat lang iso] ∧
    ∃ pre post, pre ++ cat ++ post = (newsRequest cat lang iso).contents := by
  refine ⟨rfl, ?_⟩
  refine ⟨"Act as MrDaniel, God-Level News AI. Retrieve 8 most recent verified news items for \"",
    "\" in " ++ lang ++ ".\n    MANDATORY RULES: \n    - ONLY confirmed facts. Current date: "
      ++ iso
      ++ ".\n    - Double source rule (isVerified=true only if 2+ major outlets).\n    - Tone: Professional, zero opinion.\n    - Response: JSON array of objects.\n    - Fields: id, title, summary, sources (array), url, timestamp, category, isVerified (boolean), verificationDetails.",
    ?_⟩
  simp [newsRequest, newsPrompt, String.append_assoc]

/-- Witness for `selectCategory_one_call_with_token`: selecting the
`Seguridad` category issues exactly the one request built from its prompt. -/
theorem selectCategory_one_call_with_token_witness :
    (selectCategory parseNone sampleState "Seguridad" "es-ES"
        "2026-10-11T00:00:00Z" (Except.error ()) 9).2
      = [newsRequest "Seguridad" "es-ES" "2026-10-11T00:00:00Z"] :=
  (selectCategory_one_call_with_token parseNone sampleState "Seguridad" "es-ES"
    "2026-10-11T00:00:00Z" (Except.error ()) 9 (by decide)).1

/-- Joining a nonempty row list with a separator is the head followed by the
separator-prefixed remaining rows, concatenated. -/
theorem joinSep_head (sep h : String) (rows : List String) :
    joinSep sep (h :: rows)
      = h ++ (rows.map (fun r => sep ++ r)).foldr (fun a b => a ++ b) "" := by
  induction rows generalizing h with
  | nil => simp [joinSep]
  | cons r rs ih =>
    simp only [joinSep, List.map_cons, List.foldr_cons]
    rw [ih r]
    simp [String.append_assoc]

/-- C9: The exported CSV is the header row
`Title,Category,Verified,Time,URL` followed, in list order, by one
newline-prefixed row per item holding the double-quote-wrapped title, the
category, the literal `YES`/`NO` verification flag, the timestamp and the
URL; the download filename is `MrDaniel_Report_` ++ epoch-millis ++
`.csv`. -/
theorem exportCSV_format (news : List NewsItem) (now : Nat) :
    exportCSVContent news
      = "Title,Category,Verified,Time,URL"
        ++ (news.map (fun n =>
            "\n" ++ "\"" ++ n.title ++ "\"" ++ "," ++ n.category ++ ","
              ++ (if n.isVerified then "YES" else "NO") ++ "," ++ n.timestamp
              ++ "," ++ n.url)).foldr (fun a b => a ++ b) "" ∧
    exportFilename now = "MrDaniel_Report_" ++ toString now ++ ".csv" := by
  refine ⟨?_, rfl⟩
  unfold exportCSVContent
  rw [List.map_cons, joinSep_head]
  congr 1
  rw [List.map_map, List.map_map]
  congr 1
  refine List.map_congr_left (fun n _ => ?_)
  simp only [joinSep, Function.comp, String.append_assoc]

/-- Every `handleChat` invocation only ever extends the transcript: the prior
transcript is a prefix of the new one (no entry is mutated or deleted). -/
theorem handleChat_transcript_monotone (s : AppState) (tc : TemporalContext) (lang : String)
    (out : Except Unit String) :
    s.chatMessages <+: (handleChat s tc lang out).1.chatMessages := by
  by_cases hg : jsTrim s.input = "" ∨ s.isTyping
  · unfold handleChat
    rw [chatStart_guard s tc lang hg]
  · push_neg at hg
    obtain ⟨h1, h2⟩ := hg
    have h2' : s.isTyping = false := by simpa using h2
    unfold handleChat
    rw [chatStart_run s tc lang h1 h2']
    cases out with
    | ok r =>
      show s.chatMessages <+:
        (s.chatMessages ++ [ChatMessage.mk Role.user s.input])
          ++ [ChatMessage.mk Role.model r]
      rw [List.append_assoc]
      exact List.prefix_append _ _
    | error u =>
      show s.chatMessages <+:
        s.chatMessages ++ [ChatMessage.mk Role.user s.input]
      exact List.prefix_append _ _

/-- A successful turn with non-blank input appends exactly the user message
and the model reply, and ends with `isTyping` cleared. -/
theorem handleChat_ok_run (s : AppState) (tc : TemporalContext) (lang : String)
    (r : String) (h1 : ¬ jsTrim s.input = "") (h2 : s.isTyping = false) :
    (handleChat s tc lang (Except.ok r)).1.chatMessages
        = s.chatMessages
            ++ [ChatMessage.mk Role.user s.input, ChatMessage.mk Role.model r] ∧
    (handleChat s tc lang (Except.ok r)).1.isTyping = false := by
  unfold handleChat
  rw [chatStart_run s tc lang h1 h2]
  constructor
  · show (s.chatMessages ++ [ChatMessage.mk Role.user s.input])
        ++ [ChatMessage.mk Role.model r] = _
    simp
  · rfl

/-- Running a list of successful turns appends exactly the alternating
transcript fragment of those turns. -/
theorem runTurns_ok (lang : String)
    (us : List (String × TemporalContext × String)) :
    ∀ s : AppState, s.isTyping = false → (∀ t ∈ us, ¬ jsTrim t.1 = "") →
      (runTurns s lang
        (us.map (fun t => (t.1, t.2.1, Except.ok t.2.2)))).chatMessages
        = s.chatMessages ++ turnsTranscript (us.map (fun t => (t.1, t.2.2))) := by
  induction us with
  | nil =>
    intro s _ _
    simp [runTurns, turnsTranscript]
  | cons t rest ih =>
    intro s hty hin
    obtain ⟨u, tc, r⟩ := t
    simp only [List.map_cons, runTurns]
    have h1 : ¬ jsTrim ({ s with input := u } : AppState).input = "" := by
      have := hin (u, tc, r) (List.mem_cons_self _ _)
      simpa using this
    have h2 : ({ s with input := u } : AppState).isTyping = false := hty
    obtain ⟨hmsgs, hty'⟩ := handleChat_ok_run { s with input := u } tc lang r h1 h2
    rw [ih _ hty' (fun t' ht' => hin t' (List.mem_cons_of_mem _ ht'))]
    rw [hmsgs]
    simp [turnsTranscript, List.append_assoc]

/-- The transcript fragment of `N` turns has exactly `2N` entries. -/
theorem turnsTranscript_length (ps : List (String × String)) :
    (turnsTranscript ps).length = 2 * ps.length := by
  induction ps with
  | nil => rfl
  | cons p rest ih =>
    simp [turnsTranscript] at ih ⊢
    omega

/-- In the transcript fragment, turn `i` contributes its user message at
position `2i` and its model reply at position `2i+1`. -/
theorem turnsTranscript_getElem (ps : List (String × String)) :
    ∀ i t, ps[i]? = some t →
      (turnsTranscript ps)[2*i]? = some (ChatMessage.mk Role.user t.1) ∧
      (turnsTranscript ps)[2*i+1]? = some (ChatMessage.mk Role.model t.2) := by
  induction ps with
  | nil =>
    intro i t h
    simp at h
  | cons p rest ih =>
    intro i t h
    cases i with
    | zero =>
      simp at h
      subst h
      constructor <;> simp [turnsTranscript]
    | succ j =>
      have h' : rest[j]? = some t := by simpa using h
      obtain ⟨hu, hm⟩ := ih j t h'
      constructor
      · have e1 : 2 * (j + 1) = 2 * j + 1 + 1 := by ring
        rw [e1]
        show (ChatMessage.mk Role.user p.1 :: ChatMessage.mk Role.model p.2 ::
          turnsTranscript rest)[2*j+1+1]? = _
        rw [List.getElem?_cons_succ, List.getElem?_cons_succ]
        exact hu
      · have e2 : 2 * (j + 1) + 1 = 2 * j + 1 + 1 + 1 := by ring
        rw [e2]
        show (ChatMessage.mk Role.user p.1 :: ChatMessage.mk Role.model p.2 ::
          turnsTranscript rest)[2*j+1+1+1]? = _
        rw [List.getElem?_cons_succ, List.getElem?_cons_succ]
        exact hm

/-- C3: The transcript is append-only (every `handleChat` invocation
leaves the prior transcript as a prefix of the new one), and after `N`
successful turns from an empty transcript it holds exactly `2N` entries in
submission order, alternating user/model: turn `i`'s user message sits at
position `2i`, immediately followed by its model reply at `2i+1`. -/
theorem transcript_append_only_alternating
    (lang : String) (s s₀ : AppState) (tc : TemporalContext)
    (out : Except Unit String)
    (us : List (String × TemporalContext × String))
    (h0 : s₀.chatMessages = []) (hty : s₀.isTyping = false)
    (hin : ∀ t ∈ us, ¬ jsTrim t.1 = "") :
    s.chatMessages <+: (handleChat s tc lang out).1.chatMessages ∧
    (runTurns s₀ lang
        (us.map (fun t => (t.1, t.2.1, Except.ok t.2.2)))).chatMessages
      = turnsTranscript (us.map (fun t => (t.1, t.2.2))) ∧
    (runTurns s₀ lang
        (us.map (fun t => (t.1, t.2.1, Except.ok t.2.2)))).chatMessages.length
      = 2 * us.length ∧
    ∀ i t, us[i]? = some t →
      (runTurns s₀ lang
          (us.map (fun t => (t.1, t.2.1, Except.ok t.2.2)))).chatMessages[2*i]?
        = some (ChatMessage.mk Role.user t.1) ∧
      (runTurns s₀ lang
          (us.map (fun t => (t.1, t.2.1, Except.ok t.2.2)))).chatMessages[2*i+1]?
        = some (ChatMessage.mk Role.model t.2.2) := by
  have hrun := runTurns_ok lang us s₀ hty hin
  rw [h0] at hrun
  simp only [List.nil_append] at hrun
  refine ⟨handleChat_transcript_monotone s tc lang out, hrun, ?_, ?_⟩
  · rw [hrun, turnsTranscript_length]
    simp
  · intro i t h
    have hmap : (us.map (fun t => (t.1, t.2.2)))[i]? = some (t.1, t.2.2) := by
      simp [List.getElem?_map, h]
    obtain ⟨hu, hm⟩ :=
      turnsTranscript_getElem (us.map (fun t => (t.1, t.2.2))) i (t.1, t.2.2) hmap
    rw [hrun]
    exact ⟨hu, hm⟩

/-- Witness for `transcript_append_only_alternating`: one successful turn on
the sample state yields exactly the user message and its reply. -/
theorem transcript_append_only_alternating_witness :
    (runTurns sampleState "es"
        ([("hola", sampleTC, "bienvenido")].map
          (fun t => (t.1, t.2.1, Except.ok t.2.2)))).chatMessages
      = turnsTranscript ([("hola", sampleTC, "bienvenido")].map
          (fun t => (t.1, t.2.2))) :=
  (transcript_append_only_alternating "es" sampleState sampleState sampleTC
    (Except.ok "x") [("hola", sampleTC, "bienvenido")] rfl rfl (by decide)).2.1

end MrDaniel
